import Mathlib

/-!
Verification of the playback-state machine of the ytcli repository
(src/musicd.py plus the CLI client src/music_cli.py).

The daemon keeps three module-level variables (queue, history,
current_track), one asyncio lock (player_lock), one mpv player, and a
background autoplay loop (player_loop) that spawns play_next tasks.
Endpoint handlers mutate this state directly.  We model:

  - the queue operations used by the handlers (list append, insert at
    head, pop of the head);
  - the endpoint handlers /stop, /next, /play, /queue, /status as pure
    state transformers over a DaemonState, with the commands issued to
    the mpv player recorded in an engine trace;
  - the resolver functions search_youtube and search_list as functions
    of the outcome of the yt_dlp extract_info call;
  - the host/port configuration of the daemon (main) and of the CLI
    client (MusicAPI.__init__);
  - the asyncio interleaving of play_next tasks, the player_loop and
    the handlers as a labelled transition relation Step.  asyncio is
    cooperative: code between two await points runs atomically, so the
    body of play_next from lock acquisition up to the run_in_executor
    await is one atomic step, and the code after the executor returns
    (clearing current_track and releasing the lock) is another.
-/

namespace YtCli

/-- Track descriptor dict built by search_youtube / search_list in
src/musicd.py (fields title, webpage_url, duration, duration_str,
artist, channel, thumbnail; every field comes from dict.get and may be
absent). -/
structure Item where
  title : Option String
  webpage_url : Option String
  duration : Option Nat
  duration_str : Option String
  artist : Option String
  channel : Option String
  thumbnail : Option String
deriving DecidableEq, Repr

/-- queue.append(track) in add_queue (src/musicd.py). -/
def enqueue_back (q : List Item) (i : Item) : List Item := q ++ [i]

/-- queue.insert(0, track) in play (src/musicd.py). -/
def enqueue_front (q : List Item) (i : Item) : List Item := i :: q

/-- queue.pop(0) in play_next (src/musicd.py), guarded by the
emptiness check: returns the popped head (if any) and the remaining
queue. -/
def dequeue_front (q : List Item) : Option Item × List Item :=
  match q with
  | [] => (none, [])
  | i :: rest => (some i, rest)

/-- Repeated dequeue_front until the queue reports empty; the fuel
argument bounds the number of pops (the initial queue length suffices). -/
def drainFuel : Nat → List Item → List Item
  | 0, _ => []
  | n + 1, q =>
    match dequeue_front q with
    | (none, _) => []
    | (some i, rest) => i :: drainFuel n rest

/-- The sequence of items returned by successive dequeue_front calls. -/
def drain (q : List Item) : List Item := drainFuel q.length q

/-- Commands issued to the mpv player object (player.play,
player.stop, player.pause assignment). -/
inductive EngineCmd where
  | start (url : Option String)
  | stop
  | pause (value : Bool)
deriving DecidableEq, Repr

/-- The module-level daemon state of src/musicd.py: queue, history,
current_track, the asyncio player_lock, plus bookkeeping for the
interleaving model: pending counts spawned play_next tasks that have
not yet acquired the lock, playing counts tasks currently inside the
blocking player.play / wait_for_playback call, and engine is the trace
of commands issued to the mpv player. -/
structure DaemonState where
  queue : List Item
  history : List Item
  current : Option Item
  lockHeld : Bool
  pending : Nat
  playing : Nat
  engine : List EngineCmd
deriving DecidableEq, Repr

/-- Daemon state at process start: empty queue, empty history, no
current track, lock free, no tasks. -/
def initState : DaemonState :=
  { queue := [], history := [], current := none,
    lockHeld := false, pending := 0, playing := 0, engine := [] }

/-- Response of GET /status (src/musicd.py): ok, now, queue, history. -/
structure StatusResp where
  ok : Bool
  now : Option Item
  queue : List Item
  history : List Item
deriving DecidableEq, Repr

/-- Response of POST /play: either ok with the resolved track, or
ok false with an error string. -/
structure PlayResp where
  ok : Bool
  error : Option String
  track : Option Item
deriving DecidableEq, Repr

/-- Response of POST /queue: either ok with the enqueued item, or
ok false with an error string. -/
structure QueueResp where
  ok : Bool
  error : Option String
  item : Option Item
deriving DecidableEq, Repr

/-- Response of POST /next.  The track field models the JSON key
"track": none means the key is absent from the response dict, some v
means the key is present with value v (v itself may be null). -/
structure NextResp where
  ok : Bool
  track : Option (Option Item)
  message : Option String
deriving DecidableEq, Repr

/-- POST /stop handler (src/musicd.py): queue.clear(); player.stop();
current_track = None.  History is not touched. -/
def stopH (s : DaemonState) : DaemonState :=
  { s with queue := [], engine := s.engine ++ [EngineCmd.stop], current := none }

/-- GET /status handler (src/musicd.py): returns ok, now, queue,
history from the module state. -/
def statusH (s : DaemonState) : StatusResp :=
  { ok := true, now := s.current, queue := s.queue, history := s.history }

/-- POST /play handler (src/musicd.py): resolves the query with
search_youtube; on failure returns the error response and mutates
nothing; on success inserts the track at the queue head and stops the
player so the autoplay loop picks the new head up. -/
def playEndpoint (resolve : String → Option Item) (q : String) (s : DaemonState) :
    PlayResp × DaemonState :=
  match resolve q with
  | none => ({ ok := false, error := some "Música não encontrada", track := none }, s)
  | some t =>
      ({ ok := true, error := none, track := some t },
       { s with queue := enqueue_front s.queue t,
                engine := s.engine ++ [EngineCmd.stop] })

/-- POST /queue handler (src/musicd.py): resolves the query with
search_youtube; on failure returns the error response and mutates
nothing; on success appends the track at the queue tail. -/
def queueEndpoint (resolve : String → Option Item) (q : String) (s : DaemonState) :
    QueueResp × DaemonState :=
  match resolve q with
  | none => ({ ok := false, error := some "Música não encontrada", item := none }, s)
  | some t =>
      ({ ok := true, error := none, item := some t },
       { s with queue := enqueue_back s.queue t })

/-- POST /next handler (src/musicd.py).  With an empty queue it stops
the player and returns ok with only a message, no track key.  With a
non-empty queue it stops the player, sleeps 0.5 s so the autoplay loop
can advance, and returns the value of current_track as observed after
that sleep; currentAfterSleep is that later observation, passed in
because the loop runs concurrently with the handler. -/
def nextEndpoint (s : DaemonState) (currentAfterSleep : Option Item) :
    NextResp × DaemonState :=
  match s.queue with
  | [] =>
      ({ ok := true, track := none, message := some "Fila vazia." },
       { s with engine := s.engine ++ [EngineCmd.stop] })
  | _ :: _ =>
      ({ ok := true, track := some currentAfterSleep, message := none },
       { s with engine := s.engine ++ [EngineCmd.stop] })

/-- An entry dict of a yt_dlp info result, as read by search_youtube
and search_list via entry.get (every key may be missing). -/
structure VideoInfo where
  title : Option String
  webpage_url : Option String
  duration : Option Nat
  duration_string : Option String
  uploader : Option String
  channel : Option String
  thumbnail : Option String
deriving DecidableEq, Repr

/-- The dict returned by ydl.extract_info: possibly an entries list
(present for search or playlist results, absent for a direct video),
together with the top-level video fields of the dict itself. -/
structure InfoDict where
  entries : Option (List VideoInfo)
  video : VideoInfo
deriving DecidableEq, Repr

/-- Outcome of the ydl.extract_info call inside the resolver:
either yt_dlp raised DownloadError (provider transport failure or
extraction error), or it returned an info dict. -/
inductive ExtractResult where
  | downloadError
  | ok (info : InfoDict)
deriving DecidableEq, Repr

/-- The track dict built from an entry (the same field mapping in
search_youtube and search_list of src/musicd.py). -/
def toItem (v : VideoInfo) : Item :=
  { title := v.title, webpage_url := v.webpage_url, duration := v.duration,
    duration_str := v.duration_string, artist := v.uploader,
    channel := v.channel, thumbnail := v.thumbnail }

/-- search_youtube (src/musicd.py): a DownloadError is caught and
turned into None; otherwise the first entry (if the entries list is
present and non-empty) or the dict itself is taken, None is returned
when it has no webpage_url, and the track dict is built from it. -/
def search_youtube (r : ExtractResult) : Option Item :=
  match r with
  | ExtractResult.downloadError => none
  | ExtractResult.ok info =>
      let v := match info.entries with
        | some (e :: _) => e
        | _ => info.video
      match v.webpage_url with
      | none => none
      | some _ => some (toItem v)

/-- search_list (src/musicd.py): no exception handler, so a
DownloadError propagates out of the function (modelled as error);
a missing or empty entries list yields the empty result list;
otherwise every entry is mapped to a track dict. -/
def search_list (r : ExtractResult) : Except Unit (List Item) :=
  match r with
  | ExtractResult.downloadError => Except.error ()
  | ExtractResult.ok info =>
      match info.entries with
      | some [] => Except.ok []
      | none => Except.ok []
      | some es => Except.ok (es.map toItem)

/-- An environment: the result of os.getenv for each variable name. -/
def Env : Type := String → Option String

/-- Python truthiness of "a or b" on an optional string: an absent or
empty string falls through to b. -/
def pyOrStr (a b : Option String) : Option String :=
  match a with
  | some s => if s = "" then b else some s
  | none => b

/-- Base-10 parse of a decimal digit string, modelling the Python
int() call on the MUSICD_PORT value: none models int() raising
ValueError on a non-numeric string (sign and whitespace handling of
int() are not needed for the port strings considered here). -/
def parseIntStr (s : String) : Option Nat :=
  let cs := s.toList
  if cs = [] then none
  else if cs.all (fun c => c.isDigit) then
    some (cs.foldl (fun n c => n * 10 + (c.toNat - 48)) 0)
  else none

/-- main in src/musicd.py: uvicorn.run is called with the literal
host "127.0.0.1" and port 5000; the environment is not consulted. -/
def daemonBind (_env : Env) : String × Nat := ("127.0.0.1", 5000)

/-- MusicAPI.__init__ host selection (src/music_cli.py):
host or os.getenv("MUSICD_HOST") or DEFAULT_HOST, with Python
truthiness (empty strings fall through) and DEFAULT_HOST = 127.0.0.1. -/
def musicAPIHost (host : Option String) (env : Env) : String :=
  (pyOrStr host (pyOrStr (env "MUSICD_HOST") (some "127.0.0.1"))).getD ""

/-- MusicAPI.__init__ port selection (src/music_cli.py):
port or int(os.getenv("MUSICD_PORT") or DEFAULT_PORT) with
DEFAULT_PORT = 5000; a port argument of 0 is falsy and falls through;
none models the int() call raising on an unparsable string. -/
def musicAPIPort (port : Option Nat) (env : Env) : Option Nat :=
  match port with
  | some p => if p = 0 then envPort env else some p
  | none => envPort env
where
  envPort (env : Env) : Option Nat :=
    match env "MUSICD_PORT" with
    | none => some 5000
    | some s => if s = "" then some 5000 else parseIntStr s

/-- Labels for the transition relation: player_loop spawning a
play_next task, the two atomic sections of play_next (lock acquisition
with an empty queue, lock acquisition with a pop), the executor call
returning (finish), and the four mutating HTTP handlers. -/
inductive Act where
  | spawn
  | acqEmpty
  | acqPop (i : Item)
  | finish
  | httpStop
  | enqBack (i : Item)
  | enqFront (i : Item)
  | httpNext
deriving DecidableEq, Repr

/-- Interleaving semantics of src/musicd.py under asyncio: each
constructor is one atomic section (code between two await points).

  - spawn: player_loop creates a play_next task (the guard of the loop
    is over-approximated: spawning is allowed at any time, which only
    strengthens the safety results);
  - acqEmpty: a pending play_next task acquires the free lock, finds
    the queue empty, sets current_track to None, and releases the lock
    on return — all without an intervening await;
  - acqPop: a pending play_next task acquires the free lock, pops the
    queue head into current_track, appends it to history, and hands it
    to player.play inside run_in_executor; the lock stays held and the
    start call is now active;
  - finish: the executor call of a playing task returns (the track
    ended naturally or player.stop interrupted it); the task clears
    current_track and releases the lock;
  - httpStop: the /stop handler body;
  - enqBack: the queue mutation of a successful /queue call;
  - enqFront: the queue mutation plus player.stop of a successful
    /play call;
  - httpNext: the player.stop issued by /next. -/
inductive Step : DaemonState → Act → DaemonState → Prop where
  | spawn (s : DaemonState) :
      Step s Act.spawn { s with pending := s.pending + 1 }
  | acqEmpty (s : DaemonState) (p : Nat)
      (hl : s.lockHeld = false) (hp : s.pending = p + 1) (hq : s.queue = []) :
      Step s Act.acqEmpty { s with pending := p, current := none }
  | acqPop (s : DaemonState) (p : Nat) (i : Item) (rest : List Item)
      (hl : s.lockHeld = false) (hp : s.pending = p + 1) (hq : s.queue = i :: rest) :
      Step s (Act.acqPop i)
        { s with queue := rest, history := s.history ++ [i], current := some i,
                 lockHeld := true, pending := p, playing := s.playing + 1,
                 engine := s.engine ++ [EngineCmd.start i.webpage_url] }
  | finish (s : DaemonState) (p : Nat) (hp : s.playing = p + 1) :
      Step s Act.finish { s with current := none, lockHeld := false, playing := p }
  | httpStop (s : DaemonState) :
      Step s Act.httpStop (stopH s)
  | enqBack (s : DaemonState) (i : Item) :
      Step s (Act.enqBack i) { s with queue := enqueue_back s.queue i }
  | enqFront (s : DaemonState) (i : Item) :
      Step s (Act.enqFront i)
        { s with queue := enqueue_front s.queue i,
                 engine := s.engine ++ [EngineCmd.stop] }
  | httpNext (s : DaemonState) :
      Step s Act.httpNext { s with engine := s.engine ++ [EngineCmd.stop] }

/-- Some step with some label. -/
def StepAny (a b : DaemonState) : Prop := ∃ act, Step a act b

/-- States reachable from process start by any interleaving. -/
def Reachable (s : DaemonState) : Prop :=
  Relation.ReflTransGen StepAny initState s

/-- The mutual-exclusion invariant maintained by player_lock: at most
one play_next task is inside the engine start call, and none is when
the lock is free. -/
def LockInv (s : DaemonState) : Prop :=
  s.playing ≤ 1 ∧ (s.lockHeld = false → s.playing = 0)

/-- A sample resolved track. -/
def sampleItem : Item :=
  { title := some "a", webpage_url := some "u1", duration := some 100,
    duration_str := some "1:40", artist := some "x", channel := none,
    thumbnail := none }

/-- A second sample track. -/
def sampleItem2 : Item :=
  { title := some "b", webpage_url := some "u2", duration := none,
    duration_str := none, artist := none, channel := none, thumbnail := none }

/-- A third sample track. -/
def sampleItem3 : Item :=
  { title := some "c", webpage_url := some "u3", duration := none,
    duration_str := none, artist := none, channel := none, thumbnail := none }

/-- State with one queued track and one pending play_next task, used
to exercise the dequeue step. -/
def preDeqState : DaemonState :=
  { initState with queue := [sampleItem], pending := 1 }

/-- The state after the pending task pops sampleItem and starts it. -/
def postDeqState : DaemonState :=
  { preDeqState with
    queue := []
    history := preDeqState.history ++ [sampleItem]
    current := some sampleItem
    lockHeld := true
    pending := 0
    playing := preDeqState.playing + 1
    engine := preDeqState.engine ++ [EngineCmd.start sampleItem.webpage_url] }

/-- State with queue [A, B] and a current track, used to exercise
/stop. -/
def stopScenario : DaemonState :=
  { queue := [sampleItem, sampleItem2], history := [sampleItem3],
    current := some sampleItem3, lockHeld := true, pending := 0,
    playing := 1, engine := [] }

/-- A resolver that finds nothing. -/
def resolveNothing : String → Option Item := fun _ => none

/-- The top-level dict of a ytsearch result with zero matches:
an empty entries list and no webpage_url of its own. -/
def searchDictVideo : VideoInfo :=
  { title := none, webpage_url := none, duration := none,
    duration_string := none, uploader := none, channel := none,
    thumbnail := none }

/-- extract_info result for a query with zero matches. -/
def zeroMatchInfo : InfoDict := { entries := some [], video := searchDictVideo }

/-- Daemon state with a non-empty queue, used to exercise /next. -/
def nextScenario : DaemonState := { initState with queue := [sampleItem] }

/-- An environment with both MUSICD variables set. -/
def overrideEnv : Env := fun k =>
  if k = "MUSICD_HOST" then some "0.0.0.0"
  else if k = "MUSICD_PORT" then some "8080"
  else none

/-- An environment with no variables set. -/
def emptyEnv : Env := fun _ => none

/-- The lock invariant holds at process start. -/
theorem lockInv_init : LockInv initState :=
  ⟨Nat.zero_le 1, fun _ => rfl⟩

/-- Every atomic step preserves the lock invariant: entering the
engine start call requires the lock to be free, and by the invariant a
free lock means no start call is active. -/
theorem lockInv_step (s s2 : DaemonState) (a : Act)
    (h : LockInv s) (hs : Step s a s2) : LockInv s2 := by
  cases hs with
  | spawn => exact h
  | acqEmpty p hl hp hq => exact h
  | acqPop p i rest hl hp hq =>
      have h0 : s.playing = 0 := h.2 hl
      refine ⟨?_, ?_⟩
      · show s.playing + 1 ≤ 1
        omega
      · intro hf
        exact absurd hf (by simp)
  | finish p hp =>
      have h1 := h.1
      refine ⟨?_, fun _ => ?_⟩
      · show p ≤ 1
        omega
      · show p = 0
        omega
  | httpStop => exact h
  | enqBack i => exact h
  | enqFront i => exact h
  | httpNext => exact h

/-- Every reachable daemon state satisfies the lock invariant. -/
theorem reachable_lockInv (s : DaemonState) (h : Reachable s) : LockInv s := by
  induction h with
  | refl => exact lockInv_init
  | tail hst hlast ih =>
      obtain ⟨act, hstep⟩ := hlast
      exact lockInv_step _ _ _ ih hstep

/-- Folding enqueue_back appends the items in order. -/
theorem foldl_enqueue_back (items : List Item) :
    ∀ q : List Item, List.foldl enqueue_back q items = q ++ items := by
  induction items with
  | nil => intro q; simp [List.foldl]
  | cons i rest ih => intro q; simp [List.foldl, enqueue_back, ih]

/-- Draining a queue with fuel equal to its length returns the queue
itself, head first. -/
theorem drainFuel_id (q : List Item) : drainFuel q.length q = q := by
  induction q with
  | nil => rfl
  | cons i rest ih => simp [drainFuel, dequeue_front, ih]

/-- C1: in every reachable interleaving of a POST /next (or /play)
trigger and the autoplay loop, at most one engine start call is active
at any time — player_lock serializes play_next — and a pop performed
by an advance neither duplicates nor drops a queued item: the
concatenation History ++ Queue is preserved by the pop step. -/
theorem c1_single_active_start :
    (∀ s : DaemonState, Reachable s → s.playing ≤ 1) ∧
    (∀ (s s2 : DaemonState) (i : Item), Step s (Act.acqPop i) s2 →
        s2.history ++ s2.queue = s.history ++ s.queue) := by
  constructor
  · intro s h
    exact (reachable_lockInv s h).1
  · intro s s2 i hstep
    cases hstep
    simp_all

/-- C1 witness: the initial state is reachable and has no active
start call, and the concrete pop of sampleItem preserves
History ++ Queue. -/
theorem c1_single_active_start_witness :
    initState.playing ≤ 1 ∧
    postDeqState.history ++ postDeqState.queue =
      preDeqState.history ++ preDeqState.queue :=
  ⟨c1_single_active_start.1 initState Relation.ReflTransGen.refl,
   c1_single_active_start.2 preDeqState postDeqState sampleItem
     (Step.acqPop preDeqState 0 sampleItem [] rfl rfl rfl)⟩

/-- C2: the dequeue that makes an item Current appends it to History
exactly once in that same atomic step; the steps that clear Current
(executor completion and /stop) leave History unchanged; and every
step only appends to History, so the recorded item is never removed —
one History occurrence per dequeue event, never zero, never two. -/
theorem c2_history_once_per_dequeue :
    (∀ (s s2 : DaemonState) (i : Item), Step s (Act.acqPop i) s2 →
        s2.history = s.history ++ [i]) ∧
    (∀ (s s2 : DaemonState) (a : Act), Step s a s2 →
        a = Act.finish ∨ a = Act.httpStop → s2.history = s.history) ∧
    (∀ (s s2 : DaemonState) (a : Act), Step s a s2 →
        ∃ t, s2.history = s.history ++ t) := by
  refine ⟨?_, ?_, ?_⟩
  · intro s s2 i hstep
    cases hstep
    rfl
  · intro s s2 a hstep hcl
    rcases hcl with h | h <;> subst h <;> cases hstep <;> rfl
  · intro s s2 a hstep
    cases hstep with
    | spawn => exact ⟨[], (List.append_nil _).symm⟩
    | acqEmpty p hl hp hq => exact ⟨[], (List.append_nil _).symm⟩
    | acqPop p i rest hl hp hq => exact ⟨[i], rfl⟩
    | finish p hp => exact ⟨[], (List.append_nil _).symm⟩
    | httpStop => exact ⟨[], (List.append_nil _).symm⟩
    | enqBack i => exact ⟨[], (List.append_nil _).symm⟩
    | enqFront i => exact ⟨[], (List.append_nil _).symm⟩
    | httpNext => exact ⟨[], (List.append_nil _).symm⟩

/-- C2 witness: the concrete dequeue of sampleItem appends it to
History exactly once. -/
theorem c2_history_once_per_dequeue_witness :
    postDeqState.history = preDeqState.history ++ [sampleItem] :=
  c2_history_once_per_dequeue.1 preDeqState postDeqState sampleItem
    (Step.acqPop preDeqState 0 sampleItem [] rfl rfl rfl)

/-- C3: enqueue_back of items I1..In followed by successive
dequeue_front operations returns I1..In in the same order (FIFO). -/
theorem c3_fifo_order (items : List Item) :
    drain (List.foldl enqueue_back [] items) = items := by
  have h := foldl_enqueue_back items []
  rw [h, List.nil_append]
  exact drainFuel_id items

/-- C4: enqueue_front of item I followed immediately by dequeue_front
returns I regardless of the prior queue contents. -/
theorem c4_play_now_first (q : List Item) (i : Item) :
    dequeue_front (enqueue_front q i) = (some i, q) := rfl

/-- C5: on a state with queue [A, B] and Current = C, POST /stop
empties the queue, clears Current, tells the engine to stop, leaves
History unchanged, and a subsequent GET /status reports an empty
queue and a null now field. -/
theorem c5_stop_frame (s : DaemonState) (A B C : Item)
    (_hq : s.queue = [A, B]) (_hc : s.current = some C) :
    (stopH s).queue = [] ∧ (stopH s).current = none ∧
    (stopH s).engine = s.engine ++ [EngineCmd.stop] ∧
    (stopH s).history = s.history ∧
    statusH (stopH s) =
      { ok := true, now := none, queue := [], history := s.history } :=
  ⟨rfl, rfl, rfl, rfl, rfl⟩

/-- C5 witness: the concrete state with queue [A, B] and a current
track, stopped. -/
theorem c5_stop_frame_witness :
    (stopH stopScenario).queue = [] ∧ (stopH stopScenario).current = none ∧
    (stopH stopScenario).engine = stopScenario.engine ++ [EngineCmd.stop] ∧
    (stopH stopScenario).history = stopScenario.history ∧
    statusH (stopH stopScenario) =
      { ok := true, now := none, queue := [], history := stopScenario.history } :=
  c5_stop_frame stopScenario sampleItem sampleItem2 sampleItem3 rfl rfl

/-- C6: when the resolver produces zero results, POST /play and
POST /queue return the ok false error response and leave the daemon
state (queue, Current, History, engine trace) exactly as it was. -/
theorem c6_notfound_unchanged (resolve : String → Option Item) (q : String)
    (s : DaemonState) (h : resolve q = none) :
    playEndpoint resolve q s =
      ({ ok := false, error := some "Música não encontrada", track := none }, s) ∧
    queueEndpoint resolve q s =
      ({ ok := false, error := some "Música não encontrada", item := none }, s) := by
  refine ⟨?_, ?_⟩ <;> simp [playEndpoint, queueEndpoint, h]

/-- C6 witness: a resolver that finds nothing, applied at the initial
state. -/
theorem c6_notfound_unchanged_witness :
    playEndpoint resolveNothing "abc" initState =
      ({ ok := false, error := some "Música não encontrada", track := none },
       initState) ∧
    queueEndpoint resolveNothing "abc" initState =
      ({ ok := false, error := some "Música não encontrada", item := none },
       initState) :=
  c6_notfound_unchanged resolveNothing "abc" initState rfl

/-- C7 counterexample: the claim says a provider transport failure and
zero matches are never conflated, but search_youtube catches the
DownloadError of a transport failure and returns None — exactly the
value it returns for a zero-match search — so at these two concrete
inputs the two failure modes produce identical outcomes. -/
theorem c7_failure_modes_counterexample :
    search_youtube ExtractResult.downloadError =
      search_youtube (ExtractResult.ok zeroMatchInfo) ∧
    search_youtube ExtractResult.downloadError = none :=
  ⟨rfl, rfl⟩

/-- C7 amended: search_list distinguishes the two failure modes (a
transport failure propagates as an exception, zero matches is the
value ok []), but search_youtube — the resolver used by /play and
/queue — maps both a transport failure and zero matches to None, so
for those endpoints the two failure modes are conflated and surface
identically. -/
theorem c7_failure_modes_amended :
    search_list ExtractResult.downloadError = Except.error () ∧
    (∀ info : InfoDict, info.entries = some [] →
        search_list (ExtractResult.ok info) = Except.ok []) ∧
    search_youtube ExtractResult.downloadError = none ∧
    (∀ info : InfoDict, info.entries = some [] →
        info.video.webpage_url = none →
        search_youtube (ExtractResult.ok info) = none) := by
  refine ⟨rfl, ?_, rfl, ?_⟩
  · intro info h
    simp [search_list, h]
  · intro info h1 h2
    simp [search_youtube, h1, h2]

/-- C7 amended witness: the zero-match extract result evaluated
concretely. -/
theorem c7_failure_modes_amended_witness :
    search_list (ExtractResult.ok zeroMatchInfo) = Except.ok [] ∧
    search_youtube (ExtractResult.ok zeroMatchInfo) = none :=
  ⟨c7_failure_modes_amended.2.1 zeroMatchInfo rfl,
   c7_failure_modes_amended.2.2.2 zeroMatchInfo rfl rfl⟩

/-- C8 counterexample: with an empty queue, POST /next returns a
successful response whose body has no track key at all (only ok and a
message), contradicting the claim that the track key is always
present. -/
theorem c8_next_shape_counterexample :
    (nextEndpoint initState none).1.ok = true ∧
    (nextEndpoint initState none).1.track = none ∧
    (nextEndpoint initState none).1.message = some "Fila vazia." :=
  ⟨rfl, rfl, rfl⟩

/-- C8 amended: when the queue is empty, POST /next returns ok true
with only the message "Fila vazia." and no track key; when the queue
is non-empty it returns ok true with the track key present, holding
the current track as observed after the handler sleeps (an Item or
null). -/
theorem c8_next_shape_amended (s : DaemonState) (later : Option Item) :
    (s.queue = [] →
        (nextEndpoint s later).1 =
          { ok := true, track := none, message := some "Fila vazia." }) ∧
    (s.queue ≠ [] →
        (nextEndpoint s later).1 =
          { ok := true, track := some later, message := none }) := by
  refine ⟨?_, ?_⟩
  · intro h
    simp [nextEndpoint, h]
  · intro h
    cases hq : s.queue with
    | nil => exact absurd hq h
    | cons x xs => simp [nextEndpoint, hq]

/-- C8 amended witness: a non-empty queue yields a response with the
track key present. -/
theorem c8_next_shape_amended_witness :
    (nextEndpoint nextScenario (some sampleItem)).1 =
      { ok := true, track := some (some sampleItem), message := none } :=
  (c8_next_shape_amended nextScenario (some sampleItem)).2 (by decide)

/-- C9 counterexample: with MUSICD_HOST and MUSICD_PORT both set in
the environment, the daemon still binds the literal 127.0.0.1:5000 —
its bind host and port are not overridable via environment
variables. -/
theorem c9_config_counterexample :
    overrideEnv "MUSICD_HOST" = some "0.0.0.0" ∧
    overrideEnv "MUSICD_PORT" = some "8080" ∧
    daemonBind overrideEnv = ("127.0.0.1", 5000) := by
  refine ⟨?_, ?_, rfl⟩ <;> decide

/-- C9 amended: the daemon always binds 127.0.0.1:5000 regardless of
the environment; only the CLI client (MusicAPI) selects the daemon
host and port via the MUSICD_HOST / MUSICD_PORT environment
variables, defaulting to loopback 127.0.0.1 and port 5000. -/
theorem c9_config_amended :
    (∀ env : Env, daemonBind env = ("127.0.0.1", 5000)) ∧
    musicAPIHost none emptyEnv = "127.0.0.1" ∧
    musicAPIPort none emptyEnv = some 5000 ∧
    musicAPIHost none overrideEnv = "0.0.0.0" ∧
    musicAPIPort none overrideEnv = some 8080 := by
  refine ⟨fun _ => rfl, ?_, ?_, ?_, ?_⟩ <;> decide

/-- C10: record-at-dequeue policy — the dequeue step appends the item
to History in the same atomic step in which it becomes Current and
the engine start is issued; the step that clears Current when
playback ends, the player stop issued by /next, and the /stop handler
all leave History unchanged, so an item interrupted by /stop or /next
is still recorded exactly once. -/
theorem c10_record_at_dequeue :
    (∀ (s s2 : DaemonState) (i : Item), Step s (Act.acqPop i) s2 →
        s2.history = s.history ++ [i] ∧ s2.current = some i ∧
        s2.engine = s.engine ++ [EngineCmd.start i.webpage_url]) ∧
    (∀ (s s2 : DaemonState), Step s Act.finish s2 → s2.history = s.history) ∧
    (∀ (s s2 : DaemonState), Step s Act.httpNext s2 → s2.history = s.history) ∧
    (∀ s : DaemonState, (stopH s).history = s.history) := by
  refine ⟨?_, ?_, ?_, fun s => rfl⟩
  · intro s s2 i hstep
    cases hstep
    exact ⟨rfl, rfl, rfl⟩
  · intro s s2 hstep
    cases hstep
    rfl
  · intro s s2 hstep
    cases hstep
    rfl

/-- C10 witness: the concrete dequeue of sampleItem records it in
History at the moment it becomes Current. -/
theorem c10_record_at_dequeue_witness :
    postDeqState.history = preDeqState.history ++ [sampleItem] ∧
    postDeqState.current = some sampleItem ∧
    postDeqState.engine =
      preDeqState.engine ++ [EngineCmd.start sampleItem.webpage_url] :=
  c10_record_at_dequeue.1 preDeqState postDeqState sampleItem
    (Step.acqPop preDeqState 0 sampleItem [] rfl rfl rfl)

end YtCli
